import Mathlib

/-!
Verification development for the FlowWatch repository (Go).

The repository is a thin glue layer over logrus and the OpenTelemetry SDK:
a telemetry connection manager (`otelHelper` package: `SetupOtelHelper`,
`initOtelHelper`, `initTraceProvider`, `Shutdown` and a registry of shutdown
callbacks) and a structured logger with trace-bridge hooks (`loggingHelper`
package: `LogrusContextHook`, `LogrusOtelHook`, `addEvent`) plus a severity
enumeration (`Level`, `getLogrusLevel`, `SetLogLevel`).

The Go sources are embedded shallowly below: pure functions become Lean
functions, the mutable state (span events, the shutdown registry, the
`sync.Once` gates) is passed explicitly, and the external collaborators
(pkg/errors, strconv, logrus level constants, the otel attribute/span API,
time formatting) are modelled by small faithful definitions.
-/

set_option autoImplicit false

namespace FlowWatch

/-! ### Model of pkg/errors style Go errors

`errors.New` builds a leaf error; `errors.Wrap(cause, msg)` annotates a cause.
The rendered text of a wrapped error is the annotation, a colon-space
separator, then the rendered text of the cause (pkg/errors behaviour). -/

inductive GoError where
  | new (msg : String)
  | wrap (cause : GoError) (msg : String)
deriving DecidableEq, Repr

def GoError.message : GoError → String
  | .new m => m
  | .wrap c m => m ++ ": " ++ c.message

/-- Whether `target` occurs in the cause chain of `e` (including `e` itself);
this is what pkg/errors exposes through its `Cause`/`Unwrap` walk. -/
def GoError.inChain (e target : GoError) : Bool :=
  match e with
  | .new m => decide (GoError.new m = target)
  | .wrap c m => decide (GoError.wrap c m = target) || c.inChain target

/-! ### Model of the logrus level constants

logrus orders levels by increasing numeric value = decreasing severity:
`PanicLevel = 0`, `FatalLevel = 1`, `ErrorLevel = 2`, `WarnLevel = 3`,
`InfoLevel = 4`, `DebugLevel = 5`, `TraceLevel = 6`.  `Level.String` renders
the lower-case names, with `WarnLevel` rendered as "warning". -/

inductive LogrusLevel where
  | panicLv
  | fatalLv
  | errorLv
  | warnLv
  | infoLv
  | debugLv
  | traceLv
deriving DecidableEq, Repr

def LogrusLevel.toNat : LogrusLevel → Nat
  | .panicLv => 0
  | .fatalLv => 1
  | .errorLv => 2
  | .warnLv => 3
  | .infoLv => 4
  | .debugLv => 5
  | .traceLv => 6

def LogrusLevel.string : LogrusLevel → String
  | .panicLv => "panic"
  | .fatalLv => "fatal"
  | .errorLv => "error"
  | .warnLv => "warning"
  | .infoLv => "info"
  | .debugLv => "debug"
  | .traceLv => "trace"

/-- Severity Warn or above, in logrus encoding: numeric level at most
`WarnLevel` (more severe levels have smaller numbers). -/
def warnOrAbove (l : LogrusLevel) : Bool :=
  l.toNat ≤ LogrusLevel.warnLv.toNat

/-! ### Model of the otel attribute / span / context API

`attribute.String key value` is a key-value pair (all attributes built by this
repository are string-valued).  A span records a list of events; a Go context
optionally carries the active span.  `trace.SpanFromContext` on a context
without a span yields the SDK noop span, whose `AddEvent` records nothing;
the `Option Span` model captures exactly the recorded events. -/

structure KeyValue where
  key : String
  value : String
deriving DecidableEq, Repr

structure SpanEvent where
  name : String
  attrs : List KeyValue
deriving DecidableEq, Repr

structure Span where
  events : List SpanEvent
deriving DecidableEq, Repr

structure GoContext where
  span : Option Span
deriving DecidableEq, Repr

/-! ### Model of Go time values and RFC3339 formatting

`entry.Time.Format(time.RFC3339)` renders year-month-day, a literal T,
hour:minute:second and the zone designator; modelled here for UTC instants
(zone designator Z). -/

structure GoTime where
  year : Nat
  month : Nat
  day : Nat
  hour : Nat
  minute : Nat
  second : Nat
deriving DecidableEq, Repr

def pad2 (n : Nat) : String :=
  if n < 10 then "0" ++ toString n else toString n

def pad4 (n : Nat) : String :=
  if n < 10 then "000" ++ toString n
  else if n < 100 then "00" ++ toString n
  else if n < 1000 then "0" ++ toString n
  else toString n

def GoTime.formatRFC3339 (t : GoTime) : String :=
  pad4 t.year ++ "-" ++ pad2 t.month ++ "-" ++ pad2 t.day ++ "T" ++
    pad2 t.hour ++ ":" ++ pad2 t.minute ++ ":" ++ pad2 t.second ++ "Z"

namespace loggingHelper

/-! ### Embedding of the loggingHelper package (logHelper.go / levelHelper.go)

Entry data (`entry.Data`, a Go `map[string]interface{}`) is modelled
extensionally as a function from keys to optional values; the values that the
hooks store or inspect are strings and ints, everything else falls in the
`other` bucket exactly as the type switch in `LogrusOtelHook.Fire` does. -/

inductive GoValue where
  | str (s : String)
  | int (i : Int)
  | other
deriving DecidableEq, Repr

def DataMap : Type := String → Option GoValue

/-- Go map assignment `data[k] = v`. -/
def setData (data : DataMap) (k : String) (v : GoValue) : DataMap :=
  fun q => if q = k then some v else data q

/-- A logrus entry: level, message, field map, associated context and time. -/
structure Entry where
  level : LogrusLevel
  message : String
  data : DataMap
  ctx : GoContext
  time : GoTime

/-- LogrusContextHook.Levels: warning level and higher, plus debug
(Info is deliberately absent). -/
def contextHookLevels : List LogrusLevel :=
  [.debugLv, .warnLv, .errorLv, .fatalLv, .panicLv]

/-- LogrusOtelHook.Levels: warning level and higher. -/
def otelHookLevels : List LogrusLevel :=
  [.warnLv, .errorLv, .fatalLv, .panicLv]

/-- LogrusContextHook.Fire.  `runtime.Caller` is external; its result is the
`callerInfo` parameter (`none` models the lookup failing).  On success the
file and line are written into the entry field map; on failure a debug
diagnostic is logged and the entry is left unchanged.  The hook returns nil
in both cases. -/
def contextHookFire (callerInfo : Option (String × Int)) (e : Entry) :
    Entry × Option GoError :=
  match callerInfo with
  | none => (e, none)
  | some (file, line) =>
    ({ e with data := setData (setData e.data "file" (.str file)) "line" (.int line) },
      none)

/-- The getAttributeValue closure inside LogrusOtelHook.Fire: look the key up
in the entry data; strings pass through, ints are rendered with Sprintf
percent-d, anything else (and a missing key) falls back to the default. -/
def getAttributeValue (data : DataMap) (key defaultValue : String) : KeyValue :=
  match data key with
  | some (.str v) => ⟨key, v⟩
  | some (.int v) => ⟨key, toString v⟩
  | _ => ⟨key, defaultValue⟩

/-- addEvent: fetch the span from the context and, when one is present,
append a single event named "log" carrying the given attributes. -/
def addEvent (ctx : GoContext) (args : List KeyValue) : GoContext :=
  match ctx.span with
  | some sp => ⟨some ⟨sp.events ++ [⟨"log", args⟩]⟩⟩
  | none => ctx

/-- LogrusOtelHook.Fire (loggingHelper revision): build the five attributes
msg, level, file, line, time and hand them to addEvent; returns nil. -/
def otelHookFire (e : Entry) : Entry × Option GoError :=
  let messageValue : KeyValue := ⟨"msg", e.message⟩
  let levelValue : KeyValue := ⟨"level", e.level.string⟩
  let fileValue : KeyValue := getAttributeValue e.data "file" "unknown"
  let lineValue : KeyValue := getAttributeValue e.data "line" "unknown"
  let timeValue : KeyValue := ⟨"time", e.time.formatRFC3339⟩
  ({ e with
      ctx := addEvent e.ctx [messageValue, levelValue, fileValue, lineValue, timeValue] },
    none)

/-- Result of firing the hooks installed by initLogHelper on one entry. -/
structure FireResult where
  entry : Entry
  callerLookup : Bool
  errors : List GoError

/-- The logrus hook dispatch for the hooks installed by initLogHelper, in
registration order: a hook fires exactly when the entry level is in its
Levels list.  `callerLookup` records whether LogrusContextHook.Fire ran (and
with it the `runtime.Caller` stack inspection).  The fatal-shutdown hook of
the three-hook revision only calls otelHelper.Shutdown and touches neither
the entry nor any span, so it is not modelled here. -/
def fireHooks (callerInfo : Option (String × Int)) (e : Entry) : FireResult :=
  let ctxActive : Bool := decide (e.level ∈ contextHookLevels)
  let r1 : Entry × Option GoError :=
    if ctxActive then contextHookFire callerInfo e else (e, none)
  let otelActive : Bool := decide (r1.1.level ∈ otelHookLevels)
  let r2 : Entry × Option GoError :=
    if otelActive then otelHookFire r1.1 else (r1.1, none)
  { entry := r2.1, callerLookup := ctxActive, errors := [r1.2, r2.2].filterMap id }

end loggingHelper

/-! ### Embedding of the Level enumeration (levelHelper, package FlowWatch)

Go declares `type Level uint32` with the five constants below; the Go switch
statements compare by equality, so the translation uses equality tests on the
numeric value.  `Level` is kept transparent over `Nat`; where a claim speaks
about the 32-bit range an explicit bound is stated. -/

abbrev Level : Type := Nat

def Debug : Level := 0
def Info : Level := 1
def Warn : Level := 2
def Error : Level := 3
def Fatal : Level := 4

/-- Level.String: the canonical name of a severity value. -/
def Level.string (l : Level) : String :=
  if l = Debug then "Debug"
  else if l = Info then "Info"
  else if l = Warn then "Warn"
  else if l = Error then "Error"
  else if l = Fatal then "Fatal"
  else "Unknown"

/-- Level.getLogrusLevel: translate the enumeration to the logrus level,
falling back to the logrus debug level in the default branch. -/
def Level.getLogrusLevel (l : Level) : LogrusLevel :=
  if l = Debug then .debugLv
  else if l = Info then .infoLv
  else if l = Warn then .warnLv
  else if l = Error then .errorLv
  else if l = Fatal then .fatalLv
  else .debugLv

/-- The mutable state of the logrus logger singleton that SetLogLevel
touches: its minimum emitted level. -/
structure LogrusLogger where
  level : LogrusLevel
deriving DecidableEq, Repr

/-- SetLogLevel: `GetLogHelper().Logger.SetLevel(level.getLogrusLevel())`,
with the logger singleton passed explicitly. -/
def SetLogLevel (level : Level) (logger : LogrusLogger) : LogrusLogger :=
  { logger with level := level.getLogrusLevel }

namespace otelHelper

/-! ### Embedding of the otelHelper package (otelHelper.go / traceProvider.go)

External effects are made explicit: `os.Getenv` results come in through an
environment record ("" meaning unset), the outcome of the external call
`otlptracegrpc.New` is the `exporterErr` parameter, `log.Fatal` /
`log.Fatalf` terminate the process and are modelled as the `fatal` outcome,
and the exporter options slice is reified so the transport configuration is
observable. -/

/-- Go strconv.ParseBool, modelled from the Go standard library: accepts
exactly the twelve literal spellings, errors otherwise. -/
def parseBool (s : String) : Option Bool :=
  if s = "1" ∨ s = "t" ∨ s = "T" ∨ s = "TRUE" ∨ s = "true" ∨ s = "True" then
    some true
  else if s = "0" ∨ s = "f" ∨ s = "F" ∨ s = "FALSE" ∨ s = "false" ∨ s = "False" then
    some false
  else none

inductive ExporterOpt where
  | withEndpoint (url : String)
  | withInsecure
deriving DecidableEq, Repr

/-- How a setup step ends: normal return, an error returned to the caller, or
process termination through log.Fatal / log.Fatalf. -/
inductive SetupOutcome where
  | ok
  | err (e : GoError)
  | fatal (msg : String)
deriving DecidableEq, Repr

def exporterWrapMsg : String := "Failed to create OTLP exporter"
def tlsFatalMsg : String := "TLS is not implemented yet"
def tracerShutdownMsg : String := "Failed to shut down the tracer provider."
def exporterShutdownMsg : String := "Failed to shut down the SigNoz exporter."

/-- Observable result of initTraceProvider: how it ended, the exporter
options it accumulated, whether it appended the shutdown callback to the
registry, and the service name attached to the provider resource (set only
once execution passes the exporter construction). -/
structure TPResult where
  outcome : SetupOutcome
  opts : List ExporterOpt
  registeredCallback : Bool
  resourceServiceName : Option String
deriving DecidableEq, Repr

/-- initTraceProvider: append the endpoint option; without TLS append the
insecure option, with TLS log.Fatal; then construct the exporter (outcome
`exporterErr` of the external call): on failure return the wrapped error,
on success register the shutdown callback and install the provider. -/
def initTraceProvider (serviceName collectorURL : String) (supportTLS : Bool)
    (exporterErr : Option GoError) : TPResult :=
  let opts : List ExporterOpt := [.withEndpoint collectorURL]
  if !supportTLS then
    let opts := opts ++ [.withInsecure]
    match exporterErr with
    | some e =>
      { outcome := .err (.wrap e exporterWrapMsg), opts := opts,
        registeredCallback := false, resourceServiceName := none }
    | none =>
      { outcome := .ok, opts := opts,
        registeredCallback := true, resourceServiceName := some serviceName }
  else
    { outcome := .fatal tlsFatalMsg, opts := opts,
      registeredCallback := false, resourceServiceName := none }

/-- The shutdown callback that initTraceProvider registers, as a function of
the results of the two external shutdown calls (`none` = success): wrap each
failure, combine two failures by wrapping the provider error with the text of
the exporter error, pass a single failure through, return nil otherwise. -/
def shutdownCallback (tpErr expErr : Option GoError) : Option GoError :=
  let err1 : Option GoError := tpErr.map (fun e => .wrap e tracerShutdownMsg)
  let err2 : Option GoError := expErr.map (fun e => .wrap e exporterShutdownMsg)
  match err1, err2 with
  | some e1, some e2 => some (.wrap e1 e2.message)
  | some e1, none => some e1
  | none, e2 => e2

/-- The environment as read by os.Getenv; the empty string means unset. -/
structure OtelEnv where
  serviceName : String
  collectorURL : String
  supportTLS : String
deriving DecidableEq, Repr

/-- Observable result of initOtelHelper: the final outcome (note that a
returned error from initTraceProvider is turned into log.Fatalf here), the
configuration warnings it logged, the values it settled on, and the
trace-provider result fields. -/
structure InitResult where
  outcome : SetupOutcome
  opts : List ExporterOpt
  serviceNameUsed : String
  serviceNameDefaulted : Bool
  collectorWarning : Bool
  tlsParseWarning : Bool
  registeredCallback : Bool
deriving DecidableEq, Repr

/-- initOtelHelper: read the three configuration values with their default
policies, call initTraceProvider, and on a returned error terminate through
log.Fatalf("Failed to set up the trace provider. ...").  The src/otelHelper
revision keeps an empty collector URL (logging that export will be skipped)
rather than defaulting it. -/
def initOtelHelper (env : OtelEnv) (exporterErr : Option GoError) : InitResult :=
  let serviceName := if env.serviceName = "" then "TestService" else env.serviceName
  let tls : Bool × Bool :=
    match parseBool env.supportTLS with
    | some b => (b, false)
    | none => (false, true)
  let tpr := initTraceProvider serviceName env.collectorURL tls.1 exporterErr
  let outcome : SetupOutcome :=
    match tpr.outcome with
    | .err e => .fatal ("Failed to set up the trace provider. " ++ e.message)
    | o => o
  { outcome := outcome, opts := tpr.opts,
    serviceNameUsed := serviceName,
    serviceNameDefaulted := env.serviceName = "",
    collectorWarning := env.collectorURL = "",
    tlsParseWarning := tls.2,
    registeredCallback := tpr.registeredCallback }

/-! ### The shutdown registry drain -/

/-- A registered shutdown callback: a Go closure over captured references,
modelled as a state transformer returning an optional error. -/
abbrev Callback (σ : Type) : Type := σ → σ × Option GoError

def shutdownLogLine (e : GoError) : String :=
  "Failed to shut down the service. " ++ e.message

/-- Shutdown: iterate the registered callbacks in order; a failure is logged
(log.Printf) and the drain continues with the remaining callbacks. -/
def Shutdown {σ : Type} : List (Callback σ) → σ → List String → σ × List String
  | [], s, logs => (s, logs)
  | f :: rest, s, logs =>
    let r := f s
    let logs' : List String :=
      match r.2 with
      | some e => logs ++ [shutdownLogLine e]
      | none => logs
    Shutdown rest r.1 logs'

/-! ### Lifecycle model for SetupOtelHelper / Shutdown sequences

`SetupOtelHelper` runs `initOtelHelper` under a `sync.Once` gate;
`Shutdown` has no gate and drains the whole registry on every call.  The
model instruments the process state with the number of times the
initialization body ran and the total number of callback invocations
performed by drains; the successful setup path appends exactly one callback
to the registry. -/

inductive OtelOp where
  | setup
  | shutdown
deriving DecidableEq, Repr

structure OtelState where
  onceDone : Bool
  registrySize : Nat
  initRuns : Nat
  drainInvocations : Nat
deriving DecidableEq, Repr

def startState : OtelState :=
  { onceDone := false, registrySize := 0, initRuns := 0, drainInvocations := 0 }

def otelStep (s : OtelState) : OtelOp → OtelState
  | .setup =>
    if s.onceDone then s
    else
      { onceDone := true, registrySize := s.registrySize + 1,
        initRuns := s.initRuns + 1, drainInvocations := s.drainInvocations }
  | .shutdown =>
    { s with drainInvocations := s.drainInvocations + s.registrySize }

def runOtel (ops : List OtelOp) : OtelState :=
  ops.foldl otelStep startState

/-- The number of shutdown operations occurring after the first setup
operation of the sequence. -/
def shutdownsAfterSetup : List OtelOp → Nat
  | [] => 0
  | OtelOp.setup :: rest => rest.count OtelOp.shutdown
  | OtelOp.shutdown :: rest => shutdownsAfterSetup rest

end otelHelper

/-! ## Theorems -/

/-- Every error occurs in its own cause chain. -/
theorem GoError.inChain_self (e : GoError) : e.inChain e = true := by
  cases e with
  | new m => simp [GoError.inChain]
  | wrap c m => simp [GoError.inChain]

/-- C8: Severity round-trip: the five severity values Debug, Info, Warn,
Error, Fatal map via getLogrusLevel to five pairwise distinct logrus levels
(the homonymous ones), and each maps via String to its own canonical name,
so the translation is injective on the enumeration and name-preserving. -/
theorem severity_round_trip :
    ([Debug, Info, Warn, Error, Fatal].map Level.getLogrusLevel).Nodup
    ∧ [Debug, Info, Warn, Error, Fatal].map Level.getLogrusLevel =
        [.debugLv, .infoLv, .warnLv, .errorLv, .fatalLv]
    ∧ [Debug, Info, Warn, Error, Fatal].map Level.string =
        ["Debug", "Info", "Warn", "Error", "Fatal"] := by
  decide

/-- C10: getLogrusLevel is total over the Level type: every value outside the
five defined constants (numerically, at least 5) takes the default branch
and yields the logrus debug level, so SetLogLevel accepts it and silently
sets the logger threshold to debug. -/
theorem setLogLevel_total_default (l : Level) (lg : LogrusLogger) (h : 5 ≤ l) :
    Level.getLogrusLevel l = LogrusLevel.debugLv
    ∧ SetLogLevel l lg = { lg with level := LogrusLevel.debugLv } := by
  have h0 : ¬ l = Debug := fun hEq => absurd (hEq ▸ h) (by decide)
  have h1 : ¬ l = Info := fun hEq => absurd (hEq ▸ h) (by decide)
  have h2 : ¬ l = Warn := fun hEq => absurd (hEq ▸ h) (by decide)
  have h3 : ¬ l = Error := fun hEq => absurd (hEq ▸ h) (by decide)
  have h4 : ¬ l = Fatal := fun hEq => absurd (hEq ▸ h) (by decide)
  have hg : Level.getLogrusLevel l = LogrusLevel.debugLv := by
    unfold Level.getLogrusLevel
    rw [if_neg h0, if_neg h1, if_neg h2, if_neg h3, if_neg h4]
  exact ⟨hg, by unfold SetLogLevel; rw [hg]⟩

/-- Witness for setLogLevel_total_default at the out-of-range value 7. -/
theorem setLogLevel_total_default_witness :
    5 ≤ 7
    ∧ (Level.getLogrusLevel 7 = LogrusLevel.debugLv
      ∧ SetLogLevel 7 ⟨LogrusLevel.infoLv⟩ =
          { (⟨LogrusLevel.infoLv⟩ : LogrusLogger) with level := LogrusLevel.debugLv }) :=
  ⟨by decide, setLogLevel_total_default 7 ⟨LogrusLevel.infoLv⟩ (by decide)⟩

namespace otelHelper

/-- C4: The registered shutdown callback combines its two inner failures:
when both the tracer-provider shutdown and the exporter shutdown fail it
returns a single wrapped error whose cause chain contains the provider
failure and whose text contains both wrapped failure texts; when exactly one
fails it returns that wrapped failure alone; when neither fails it returns
nil. -/
theorem shutdownCallback_error_combination (e1 e2 : GoError) :
    shutdownCallback (some e1) (some e2) =
      some (GoError.wrap (GoError.wrap e1 tracerShutdownMsg)
        (GoError.wrap e2 exporterShutdownMsg).message)
    ∧ (GoError.wrap (GoError.wrap e1 tracerShutdownMsg)
        (GoError.wrap e2 exporterShutdownMsg).message).message =
      (exporterShutdownMsg ++ ": " ++ e2.message) ++ ": " ++
        (tracerShutdownMsg ++ ": " ++ e1.message)
    ∧ (GoError.wrap (GoError.wrap e1 tracerShutdownMsg)
        (GoError.wrap e2 exporterShutdownMsg).message).inChain e1 = true
    ∧ shutdownCallback (some e1) none = some (GoError.wrap e1 tracerShutdownMsg)
    ∧ shutdownCallback none (some e2) = some (GoError.wrap e2 exporterShutdownMsg)
    ∧ shutdownCallback none none = none := by
  refine ⟨rfl, rfl, ?_, rfl, rfl, rfl⟩
  simp [GoError.inChain, GoError.inChain_self]

/-- C2 counterexample: with a failing exporter construction, the setup path
does not return the wrapped error to its caller: initOtelHelper turns it
into log.Fatalf, terminating the process inside the manager. -/
theorem setup_fatal_on_exporter_failure_cex :
    (initOtelHelper ⟨"TestService", "localhost:4317", "false"⟩
        (some (GoError.new "connection refused"))).outcome =
      SetupOutcome.fatal ("Failed to set up the trace provider. " ++
        exporterWrapMsg ++ ": " ++ "connection refused")
    ∧ (initOtelHelper ⟨"TestService", "localhost:4317", "false"⟩
        (some (GoError.new "connection refused"))).outcome ≠
      SetupOutcome.err (GoError.wrap (GoError.new "connection refused") exporterWrapMsg) := by
  decide

/-- C2 amended: on exporter-construction failure, initTraceProvider returns
a wrapped error preserving the original cause (and registers no shutdown
callback) to its caller inside the manager; initOtelHelper then terminates
the process via log.Fatalf carrying that wrapped text, so fatality is
decided inside the manager, not by the external setup caller. -/
theorem exporter_failure_wrapped_error_then_manager_fatal
    (sn url snE urlE : String) (e : GoError) :
    (initTraceProvider sn url false (some e)).outcome =
      SetupOutcome.err (GoError.wrap e exporterWrapMsg)
    ∧ (GoError.wrap e exporterWrapMsg).message =
        exporterWrapMsg ++ ": " ++ e.message
    ∧ (GoError.wrap e exporterWrapMsg).inChain e = true
    ∧ (initTraceProvider sn url false (some e)).registeredCallback = false
    ∧ (initOtelHelper ⟨snE, urlE, "false"⟩ (some e)).outcome =
        SetupOutcome.fatal ("Failed to set up the trace provider. " ++
          (exporterWrapMsg ++ ": " ++ e.message)) := by
  refine ⟨rfl, rfl, ?_, rfl, rfl⟩
  simp [GoError.inChain, GoError.inChain_self]

/-- C7: with OTEL_SUPPORT_TLS unset or "false" the exporter options carry the
insecure transport; an unparsable value behaves exactly as "false" except
that a parse warning is logged; the value "true" reaches the unimplemented
TLS guard and terminates the process fatally. -/
theorem tls_env_configuration (sn url v : String) (ee : Option GoError)
    (hv : parseBool v = none) :
    (initOtelHelper ⟨sn, url, ""⟩ ee).opts =
        [.withEndpoint url, .withInsecure]
    ∧ (initOtelHelper ⟨sn, url, "false"⟩ ee).opts =
        [.withEndpoint url, .withInsecure]
    ∧ initOtelHelper ⟨sn, url, v⟩ ee =
        { initOtelHelper ⟨sn, url, "false"⟩ ee with tlsParseWarning := true }
    ∧ (initOtelHelper ⟨sn, url, v⟩ ee).tlsParseWarning = true
    ∧ (initOtelHelper ⟨sn, url, "true"⟩ ee).outcome = SetupOutcome.fatal tlsFatalMsg := by
  refine ⟨?_, ?_, ?_, ?_, ?_⟩
  · cases ee <;> rfl
  · cases ee <;> rfl
  · simp only [initOtelHelper, hv]
    rfl
  · simp only [initOtelHelper, hv]
  · cases ee <;> rfl

/-- Witness for tls_env_configuration at the unparsable value "yes". -/
theorem tls_env_configuration_witness :
    parseBool "yes" = none
    ∧ ((initOtelHelper ⟨"S", "u", ""⟩ none).opts =
          [.withEndpoint "u", .withInsecure]
      ∧ (initOtelHelper ⟨"S", "u", "false"⟩ none).opts =
          [.withEndpoint "u", .withInsecure]
      ∧ initOtelHelper ⟨"S", "u", "yes"⟩ none =
          { initOtelHelper ⟨"S", "u", "false"⟩ none with tlsParseWarning := true }
      ∧ (initOtelHelper ⟨"S", "u", "yes"⟩ none).tlsParseWarning = true
      ∧ (initOtelHelper ⟨"S", "u", "true"⟩ none).outcome =
          SetupOutcome.fatal tlsFatalMsg) :=
  ⟨rfl, tls_env_configuration "S" "u" "yes" none rfl⟩

/-- Draining a list of callbacks that each record their identifier `p.1` in
the state and return outcome `p.2` visits every callback in list order and
logs exactly the failing outcomes, in order. -/
theorem Shutdown_indexed (ps : List (Nat × Option GoError))
    (s : List Nat) (logs : List String) :
    Shutdown (ps.map fun p => (fun st => (st ++ [p.1], p.2) : Callback (List Nat))) s logs =
      (s ++ ps.map Prod.fst, logs ++ (ps.filterMap Prod.snd).map shutdownLogLine) := by
  induction ps generalizing s logs with
  | nil => simp [Shutdown]
  | cons p rest ih =>
    obtain ⟨i, oe⟩ := p
    cases oe with
    | none => simp [Shutdown, ih]
    | some e => simp [Shutdown, ih]

/-- The second components of an enumeration are the original list. -/
theorem enumFrom_filterMap_snd {β : Type} (n : Nat) (l : List (Option β)) :
    (List.enumFrom n l).filterMap Prod.snd = l.filterMap id := by
  induction l generalizing n with
  | nil => rfl
  | cons a rest ih =>
    cases a <;> simp [List.enumFrom, List.filterMap_cons, ih]

/-- C5: Shutdown invokes every callback in the registry in insertion order
(the recorded identifiers come out as 0, 1, ..., n-1), and an error returned
by one callback is logged but does not prevent the remaining callbacks from
running: the failing outcomes are logged in order while the visit trace
still covers the whole registry. -/
theorem shutdown_invokes_all_in_order (es : List (Option GoError)) :
    (Shutdown (es.enum.map fun p => (fun st => (st ++ [p.1], p.2) : Callback (List Nat)))
        [] []).1 = List.range es.length
    ∧ (Shutdown (es.enum.map fun p => (fun st => (st ++ [p.1], p.2) : Callback (List Nat)))
        [] []).2 = (es.filterMap id).map shutdownLogLine := by
  rw [Shutdown_indexed]
  constructor
  · simp [List.enum_map_fst]
  · have h := enumFrom_filterMap_snd 0 es
    simp only [List.enum] at *
    simp [h]

/-- After setup has completed (once gate consumed, one registered callback),
further operations never rerun the initialization body and each shutdown
drains the single registered callback once. -/
theorem runOtel_from_done (ops : List OtelOp) (s : OtelState)
    (h : s.onceDone = true) (hr : s.registrySize = 1) :
    (ops.foldl otelStep s).initRuns = s.initRuns
    ∧ (ops.foldl otelStep s).drainInvocations =
        s.drainInvocations + ops.count OtelOp.shutdown := by
  induction ops generalizing s with
  | nil => simp
  | cons op rest ih =>
    cases op with
    | setup =>
      have step1 : otelStep s .setup = s := by simp [otelStep, h]
      have := ih s h hr
      simpa [step1, List.count_cons] using this
    | shutdown =>
      have := ih { s with drainInvocations := s.drainInvocations + s.registrySize }
        h (by simpa using hr)
      simp only [List.foldl_cons, otelStep] at this ⊢
      rw [this.1, this.2]
      simp [hr, List.count_cons]
      omega

/-- From a fresh state the initialization body runs exactly once when a setup
operation occurs, and drains invoke callbacks once per shutdown operation
after the first setup. -/
theorem runOtel_from_fresh (ops : List OtelOp) (s : OtelState)
    (h : s.onceDone = false) (hr : s.registrySize = 0) :
    (ops.foldl otelStep s).initRuns =
        s.initRuns + (if OtelOp.setup ∈ ops then 1 else 0)
    ∧ (ops.foldl otelStep s).drainInvocations =
        s.drainInvocations + shutdownsAfterSetup ops := by
  induction ops generalizing s with
  | nil => simp [shutdownsAfterSetup]
  | cons op rest ih =>
    cases op with
    | setup =>
      have step1 : otelStep s .setup =
          { onceDone := true, registrySize := s.registrySize + 1,
            initRuns := s.initRuns + 1, drainInvocations := s.drainInvocations } := by
        simp [otelStep, h]
      have hd := runOtel_from_done rest
        { onceDone := true, registrySize := s.registrySize + 1,
          initRuns := s.initRuns + 1, drainInvocations := s.drainInvocations }
        rfl (by simpa using hr)
      simp only [List.foldl_cons, step1]
      rw [hd.1, hd.2]
      simp [shutdownsAfterSetup]
    | shutdown =>
      have step1 : otelStep s .shutdown =
          { s with drainInvocations := s.drainInvocations + s.registrySize } := rfl
      have := ih { s with drainInvocations := s.drainInvocations + s.registrySize } h (by simpa using hr)
      simp only [List.foldl_cons, step1]
      rw [this.1, this.2]
      have hmem : (OtelOp.setup ∈ OtelOp.shutdown :: rest) = (OtelOp.setup ∈ rest) := by
        simp [List.mem_cons]
      constructor
      · simp [List.mem_cons]
      · simp [shutdownsAfterSetup, hr]

/-- C6 counterexample: in the sequence setup, shutdown, shutdown the single
registered callback is invoked twice: the unguarded Shutdown drains the
registry on every call, so the teardown drain does not run at most once. -/
theorem double_shutdown_drains_twice_cex :
    (runOtel [OtelOp.setup, OtelOp.shutdown, OtelOp.shutdown]).drainInvocations = 2
    ∧ ¬ (runOtel [OtelOp.setup, OtelOp.shutdown, OtelOp.shutdown]).drainInvocations ≤ 1 := by
  decide

/-- C6 amended: for every sequence of SetupOtelHelper and Shutdown calls the
setup initialization body runs at most once (exactly once as soon as one
setup occurs), while callback invocations happen once per Shutdown call
occurring after the first setup: a Shutdown before setup drains an empty
registry and repeated Shutdown calls drain the registry again, so
at-most-once teardown is caller discipline, not enforced by the code. -/
theorem setup_at_most_once_drain_per_shutdown (ops : List OtelOp) :
    (runOtel ops).initRuns = (if OtelOp.setup ∈ ops then 1 else 0)
    ∧ (runOtel ops).initRuns ≤ 1
    ∧ (runOtel ops).drainInvocations = shutdownsAfterSetup ops := by
  have h := runOtel_from_fresh ops startState rfl rfl
  simp only [runOtel, startState] at *
  refine ⟨by simpa using h.1, ?_, by simpa using h.2⟩
  rw [h.1]
  split <;> omega

end otelHelper

namespace loggingHelper

/-- C1: firing the hooks on an entry of severity Warn or above whose context
carries an active span appends exactly one event named "log" to that span,
carrying five attributes: the message, the severity level name, the
call-site file, the call-site line, and the entry timestamp rendered in
RFC3339; no hook reports an error. -/
theorem otelHook_appends_single_log_event (e : Entry) (sp : Span)
    (f : String) (l : Int)
    (hlv : warnOrAbove e.level = true) (hsp : e.ctx.span = some sp) :
    (fireHooks (some (f, l)) e).entry.ctx.span =
      some ⟨sp.events ++ [⟨"log",
        [⟨"msg", e.message⟩, ⟨"level", e.level.string⟩, ⟨"file", f⟩,
         ⟨"line", toString l⟩, ⟨"time", e.time.formatRFC3339⟩]⟩]⟩
    ∧ (fireHooks (some (f, l)) e).errors = [] := by
  obtain ⟨lv, msg, d, ⟨osp⟩, t⟩ := e
  dsimp only at hlv hsp ⊢
  subst hsp
  cases lv <;>
    first
      | exact ⟨rfl, rfl⟩
      | exact absurd hlv (by decide)

/-- Witness entry for the trace-bridge claim: Warn severity, active span. -/
def witnessEntryWarn : Entry :=
  { level := .warnLv, message := "boom", data := fun _ => none,
    ctx := ⟨some ⟨[]⟩⟩, time := ⟨2024, 5, 6, 7, 8, 9⟩ }

/-- Witness for otelHook_appends_single_log_event at a concrete Warn entry. -/
theorem otelHook_appends_single_log_event_witness :
    warnOrAbove witnessEntryWarn.level = true
    ∧ witnessEntryWarn.ctx.span = some ⟨[]⟩
    ∧ ((fireHooks (some ("main.go", 42)) witnessEntryWarn).entry.ctx.span =
        some ⟨[⟨"log",
          [⟨"msg", "boom"⟩, ⟨"level", "warning"⟩, ⟨"file", "main.go"⟩,
           ⟨"line", "42"⟩, ⟨"time", "2024-05-06T07:08:09Z"⟩]⟩]⟩
      ∧ (fireHooks (some ("main.go", 42)) witnessEntryWarn).errors = []) :=
  ⟨rfl, rfl, otelHook_appends_single_log_event witnessEntryWarn ⟨[]⟩ "main.go" 42 rfl rfl⟩

/-- C3: firing the hooks on an entry of severity Warn or above whose context
carries no active span leaves the context untouched (so no event is appended
to any span) and reports no error, whatever the caller lookup yields. -/
theorem warn_no_span_no_event_no_error (ci : Option (String × Int)) (e : Entry)
    (hlv : warnOrAbove e.level = true) (hsp : e.ctx.span = none) :
    (fireHooks ci e).entry.ctx = e.ctx
    ∧ (fireHooks ci e).errors = [] := by
  obtain ⟨lv, msg, d, ⟨osp⟩, t⟩ := e
  dsimp only at hlv hsp ⊢
  subst hsp
  rcases ci with _ | ⟨cf, cl⟩ <;>
    cases lv <;>
      exact ⟨rfl, rfl⟩

/-- Witness entry for the span-absent claim: Error severity, no span. -/
def witnessEntryNoSpan : Entry :=
  { level := .errorLv, message := "oops", data := fun _ => none,
    ctx := ⟨none⟩, time := ⟨2024, 1, 2, 3, 4, 5⟩ }

/-- Witness for warn_no_span_no_event_no_error at a concrete Error entry. -/
theorem warn_no_span_no_event_no_error_witness :
    warnOrAbove witnessEntryNoSpan.level = true
    ∧ witnessEntryNoSpan.ctx.span = none
    ∧ ((fireHooks none witnessEntryNoSpan).entry.ctx = witnessEntryNoSpan.ctx
      ∧ (fireHooks none witnessEntryNoSpan).errors = []) :=
  ⟨rfl, rfl, warn_no_span_no_event_no_error none witnessEntryNoSpan rfl rfl⟩

/-- C9: firing the hooks on an entry at Info severity never triggers the
call-site lookup, for every context, message and caller-lookup outcome; and
the call-site annotation hook is active exactly for Debug and for
Warn-and-above severities. -/
theorem info_no_caller_lookup (ci : Option (String × Int)) (e : Entry)
    (h : e.level = .infoLv) :
    (fireHooks ci e).callerLookup = false
    ∧ (∀ l : LogrusLevel,
        l ∈ contextHookLevels ↔ (l = .debugLv ∨ warnOrAbove l = true)) := by
  obtain ⟨lv, msg, d, ctx, t⟩ := e
  dsimp only at h
  subst h
  refine ⟨rfl, ?_⟩
  intro l
  cases l <;> decide

/-- Witness entry at Info severity. -/
def witnessEntryInfo : Entry :=
  { level := .infoLv, message := "hello", data := fun _ => none,
    ctx := ⟨some ⟨[]⟩⟩, time := ⟨2024, 3, 4, 5, 6, 7⟩ }

/-- Witness for info_no_caller_lookup at a concrete Info entry. -/
theorem info_no_caller_lookup_witness :
    witnessEntryInfo.level = .infoLv
    ∧ ((fireHooks none witnessEntryInfo).callerLookup = false
      ∧ (∀ l : LogrusLevel,
          l ∈ contextHookLevels ↔ (l = .debugLv ∨ warnOrAbove l = true))) :=
  ⟨rfl, info_no_caller_lookup none witnessEntryInfo rfl⟩

end loggingHelper

end FlowWatch
